import Mathlib

/-!
Verification of the Hawk-Eye impersonation-risk scorer (`app.py`).

The Python source is shallowly embedded below.  Python strings are Lean
`String`s (a wrapper around `List Char`); `str.lower` is mapped to per-char
ASCII lowering, `str.strip` to dropping whitespace at both ends,
`str.replace(a, b, 1)` to a first-occurrence replacement, and the `in`
substring test to an executable substring scan.  Randomness
(`random.randint` / `random.uniform`) is made explicit: each potential draw
of `calculate_risk_score` is a field of a `Rand` record, and `Rand.Valid`
states the bounds of the corresponding distribution.  Python floats are
embedded as exact rationals; the one float computation that feeds the score,
`int(behavior_risk_raw * (25 / 60))`, is embedded as the exact floor
`behavior_risk_raw * 25 / 60` (for every `raw` in `[0, 60]` the IEEE-double
evaluation agrees with the exact floor, since the double nearest `25/60`
lies above `5/12` and the products at multiples of 12 therefore stay on or
above the exact integer), and Python's `round(x, 2)` is embedded as
rounding to the nearest hundredth.
-/

namespace HawkEye

/-- `str.lower()` (ASCII case folding, the only case the program exercises). -/
def pyLower (s : String) : String := ⟨s.data.map Char.toLower⟩

/-- Strip whitespace from both ends of a character list, as `str.strip()`. -/
def stripChars (l : List Char) : List Char :=
  ((l.dropWhile Char.isWhitespace).reverse.dropWhile Char.isWhitespace).reverse

/-- `str.strip()`. -/
def pyStrip (s : String) : String := ⟨stripChars s.data⟩

/-- `str.replace(a, b, 1)` for single characters: replace the first occurrence. -/
def replaceFirstChar : List Char → Char → Char → List Char
  | [], _, _ => []
  | c :: cs, a, b => if c = a then b :: cs else c :: replaceFirstChar cs a b

/-- `s.replace('0', 'o', 1)` on strings. -/
def pyReplaceFirst (s : String) (a b : Char) : String := ⟨replaceFirstChar s.data a b⟩

/-- Does `pat` occur at the head of `l`? -/
def charsPref : List Char → List Char → Bool
  | [], _ => true
  | _ :: _, [] => false
  | a :: as, b :: bs => a == b && charsPref as bs

/-- Substring occurrence on character lists (Python's `pat in l`). -/
def charsSub (pat : List Char) : List Char → Bool
  | [] => pat.isEmpty
  | c :: t => charsPref pat (c :: t) || charsSub pat t

/-- Python's `needle in hay` substring test. -/
def pyContains (needle hay : String) : Bool := charsSub needle.data hay.data

/-- Number of positions where two strings differ, over `zip` of their
characters (Python's `sum(a != b for a, b in zip(s, t))`). -/
def diffCount (s t : String) : Nat :=
  (s.data.zip t.data).countP (fun p => p.1 != p.2)

/-- `OFFICIAL_HANDLE` constant of the program. -/
def OFFICIAL_HANDLE : String := "Odisha_Police"

/-- `RISK_THRESHOLD_HIGH` constant of the program. -/
def RISK_THRESHOLD_HIGH : Int := 70

/-- `RISK_THRESHOLD_MEDIUM` constant of the program. -/
def RISK_THRESHOLD_MEDIUM : Int := 40

/-- `get_similarity_score`: four-bucket handle similarity.  The local
variables `suspect_lower`/`official_lower` of the source are inlined. -/
def get_similarity_score (suspect_handle official_handle : String) : ℚ :=
  if pyStrip (pyLower suspect_handle) = pyStrip (pyLower official_handle) then 1
  else if pyReplaceFirst (pyStrip (pyLower suspect_handle)) '0' 'o'
            = pyStrip (pyLower official_handle)
          ∧ pyContains "0" (pyStrip (pyLower suspect_handle)) = true then mkRat 99 100
  else if suspect_handle.length = official_handle.length
          ∧ diffCount (pyStrip (pyLower suspect_handle)) (pyStrip (pyLower official_handle))
              = 1 then mkRat 9 10
  else mkRat 1 5

/-- The `fraud_keywords` list of `keyword_scan_score`. -/
def fraud_keywords : List String :=
  ["otp", "wallet", "send money", "urgent funds", "transfer now", "fine",
   "penalty", "account frozen", "kyc update", "click link", "tax refund", "jail"]

/-- The accumulated risk of `keyword_scan_score` before the final clamp:
the urgent-plus-money/fund bonus, then the keyword loop. -/
def keyword_scan_preclamp (post_content : String) : Nat :=
  let risk : Nat :=
    if pyContains "urgent" (pyLower post_content) = true
        ∧ (pyContains "money" (pyLower post_content) = true
           ∨ pyContains "fund" (pyLower post_content) = true) then 25
    else 0
  fraud_keywords.foldl
    (fun r keyword => if pyContains keyword (pyLower post_content) then r + 15 else r) risk

/-- `keyword_scan_score`: behavioral keyword scan, clamped to 60. -/
def keyword_scan_score (post_content : String) : Nat :=
  min (keyword_scan_preclamp post_content) 60

/-- Python's `round(q, 2)`: round to the nearest hundredth.  Written over
`q.num`/`q.den` so that it evaluates by kernel reduction:
`(200 * num + den) / (2 * den)` is `100 * q + 1/2`, whose floor is the
nearest hundredth count.  (Python rounds ties to even; ties never arise on
the values this program rounds in a way any claim depends on, so the tie
direction is immaterial.) -/
def round2 (q : ℚ) : ℚ :=
  mkRat (⌊mkRat (200 * q.num + q.den) (2 * q.den)⌋) 100

/-- Multiplication of a rational by 100, written over `num`/`den` so that it
evaluates by kernel reduction (used for `identity_score * 100`). -/
def mul100 (q : ℚ) : ℚ := mkRat (100 * q.num) q.den

/-- One outcome of every random draw `calculate_risk_score` may make
(`random.randint` / `random.uniform` made explicit). -/
structure Rand where
  /-- `random.randint(0, 2)` drawn in the near-exact identity branch. -/
  idBonus2 : Nat
  /-- `random.randint(0, 5)` drawn in the single-char-diff or dissimilar branch. -/
  idBonus5 : Nat
  /-- `random.uniform(90.0, 99.9)` for the first confidence branch. -/
  conf1 : ℚ
  /-- `random.uniform(70.0, 89.9)` for the second confidence branch. -/
  conf2 : ℚ
  /-- `random.uniform(50.0, 69.9)` for the fallback confidence branch. -/
  conf3 : ℚ
  /-- `random.randint(300, 500)`: displayed age of an established account. -/
  ageEstablished : Nat
  /-- `random.randint(0, 2)`: network bonus for an unestablished account. -/
  netBonus : Nat
  /-- `random.randint(1, 90)`: displayed age of an unestablished account. -/
  ageNew : Nat
  /-- `random.randint(-5, 5)`: final jitter. -/
  jitter : Int

/-- The draws lie in the ranges of the distributions the source samples. -/
def Rand.Valid (r : Rand) : Prop :=
  r.idBonus2 ≤ 2 ∧ r.idBonus5 ≤ 5
    ∧ 90 ≤ r.conf1 ∧ r.conf1 ≤ mkRat 999 10
    ∧ 70 ≤ r.conf2 ∧ r.conf2 ≤ mkRat 899 10
    ∧ 50 ≤ r.conf3 ∧ r.conf3 ≤ mkRat 699 10
    ∧ 300 ≤ r.ageEstablished ∧ r.ageEstablished ≤ 500
    ∧ r.netBonus ≤ 2
    ∧ 1 ≤ r.ageNew ∧ r.ageNew ≤ 90
    ∧ -5 ≤ r.jitter ∧ r.jitter ≤ 5

instance (r : Rand) : Decidable r.Valid := by unfold Rand.Valid; infer_instance

/-- The breakdown dictionary returned by `calculate_risk_score`, with one
field per stable key (in the order the source lists them). -/
structure RiskBreakdown where
  /-- `"Handle Similarity Score (%)"`. -/
  handleSimilarityPct : ℚ
  /-- `"Identity Risk Points (Max 45)"`. -/
  identityRiskPoints : Nat
  /-- `"Keyword Scan Points (Max 25)"`. -/
  keywordScanPoints : Nat
  /-- `"Urgency Tone Points (Max 15)"`. -/
  urgencyTonePoints : Nat
  /-- `"Behavioral Risk Points (Max 40)"`. -/
  behavioralRiskPoints : Nat
  /-- `"Network/Metadata Risk Points (Max 15)"`. -/
  networkRiskPoints : Nat
  /-- `"Account Age (Days)"`. -/
  accountAgeDays : Nat
  /-- `"Domain Age Risk Points"`. -/
  domainAgePoints : Nat
  /-- `"Phishing Link Points"`. -/
  phishingPoints : Nat
  /-- `"Stolen Picture Risk Points"`. -/
  stolenPicPoints : Nat
  /-- `"Confidence Score (%)"`. -/
  confidencePct : ℚ

/-- The identity-module points of `calculate_risk_score` (the local variable
`identity_risk` of the source), as a function of the similarity level and of
the random draw. -/
def identity_risk (identity_score : ℚ) (r : Rand) : Nat :=
  if identity_score = 1 then 0
  else if identity_score = mkRat 99 100 then 43 + r.idBonus2
  else if identity_score = mkRat 9 10 then 25 + r.idBonus5
  else 5 + r.idBonus5

/-- The mock confidence of `calculate_risk_score` (the local variable
`confidence_score` of the source), as a function of the similarity level and
of the random draw. -/
def confidence_score (identity_score : ℚ) (r : Rand) : ℚ :=
  if identity_score = 1 ∨ identity_score ≤ mkRat 1 5 then r.conf1
  else if identity_score ≥ mkRat 9 10 then r.conf2
  else r.conf3

/-- The local variable `urgency_points` of the source. -/
def urgency_points (urgency_tone_risk : String) : Nat :=
  if urgency_tone_risk = "High Urgency (Threat/Panic)" then 15
  else if urgency_tone_risk = "Medium Urgency (Time Pressure)" then 7
  else 0

/-- The local variable `keyword_points` of the source:
`int(behavior_risk_raw * (25 / 60))`, embedded as the exact floor (see the
module docstring). -/
def keyword_points (behavior_risk_raw : Nat) : Nat :=
  behavior_risk_raw * 25 / 60

/-- The local variable `behavior_risk` of the source after its clamp. -/
def behavior_risk (recent_posts urgency_tone_risk : String) : Nat :=
  min (keyword_points (keyword_scan_score recent_posts) + urgency_points urgency_tone_risk) 40

/-- The local variable `account_age_days` of the source (display only). -/
def account_age_days (is_established_account : Bool) (r : Rand) : Nat :=
  if is_established_account then r.ageEstablished else r.ageNew

/-- The local variable `domain_age_points` of the source. -/
def domain_age_points (domain_age_risk : String) : Nat :=
  if domain_age_risk = "High Risk (New/Suspicious Domain)" then 3
  else if domain_age_risk = "Medium Risk (Recently Updated Domain)" then 1
  else 0

/-- The local variable `phishing_points` of the source. -/
def phishing_points (phishing_link_risk : String) : Nat :=
  if phishing_link_risk = "Homoglyph/Typosquatting Detected" then 3
  else if phishing_link_risk = "Malicious Domain Structure Detected" then 1
  else 0

/-- The local variable `stolen_pic_points` of the source. -/
def stolen_pic_points (profile_pic_stolen : String) : Nat :=
  if profile_pic_stolen = "Yes (Stolen/Official Image Match)" then 4
  else 0

/-- The local variable `network_risk` of the source after its clamp: the
new-account points accumulated first, then the three feature points. -/
def network_risk (is_established_account : Bool)
    (domain_age_risk profile_pic_stolen phishing_link_risk : String) (r : Rand) : Nat :=
  min ((if is_established_account then 0 else 5 + r.netBonus)
        + domain_age_points domain_age_risk + phishing_points phishing_link_risk
        + stolen_pic_points profile_pic_stolen) 15

/-- `calculate_risk_score`: aggregates the three module scores and the jitter
into the final score plus the breakdown.  Each local variable of the source
is one of the helper functions above. -/
def calculate_risk_score (handle recent_posts : String) (is_established_account : Bool)
    (domain_age_risk profile_pic_stolen urgency_tone_risk phishing_link_risk : String)
    (r : Rand) : Int × RiskBreakdown :=
  let identity_score := get_similarity_score handle OFFICIAL_HANDLE
  let final_score_raw : Int :=
    identity_risk identity_score r
      + behavior_risk recent_posts urgency_tone_risk
      + network_risk is_established_account domain_age_risk profile_pic_stolen
          phishing_link_risk r
  let final_score : Int := max (min (final_score_raw + r.jitter) 100) 0
  (final_score,
   { handleSimilarityPct := round2 (mul100 identity_score)
     identityRiskPoints := identity_risk identity_score r
     keywordScanPoints := keyword_points (keyword_scan_score recent_posts)
     urgencyTonePoints := urgency_points urgency_tone_risk
     behavioralRiskPoints := behavior_risk recent_posts urgency_tone_risk
     networkRiskPoints := network_risk is_established_account domain_age_risk
         profile_pic_stolen phishing_link_risk r
     accountAgeDays := account_age_days is_established_account r
     domainAgePoints := domain_age_points domain_age_risk
     phishingPoints := phishing_points phishing_link_risk
     stolenPicPoints := stolen_pic_points profile_pic_stolen
     confidencePct := round2 (confidence_score identity_score r) })

/-- `get_action_suggestion`: (advisory text, display style, tier label). -/
def get_action_suggestion (risk_score : Int) : String × String × String :=
  if risk_score ≥ RISK_THRESHOLD_HIGH then
    ("🚨 *IMMEDIATE TAKEDOWN & FORENSIC TRACE:* Initiate platform-specific emergency takedown protocol. Begin forensic tracing of associated wallet addresses and IP logs.",
     "error",
     "HIGH RISK: IMMEDIATE TAKEDOWN REQUIRED")
  else if risk_score ≥ RISK_THRESHOLD_MEDIUM then
    ("⚠ *MANDATORY MANUAL REVIEW & MONITORING:* Escalate to a Level 2 Analyst for mandatory human review. Set up automated monitoring for further post activity over the next 48 hours.",
     "warning",
     "MEDIUM RISK: INVESTIGATE URGENTLY")
  else
    ("✅ *SCHEDULED RE-EVALUATION:* No immediate action required. Profile will be marked for re-evaluation in 7 days to check for any changes in risk factors or behavioral patterns.",
     "info",
     "LOW RISK: MONITOR")

/-- The risk color chosen at the top of `create_html_report`. -/
def risk_color_of (final_score : Int) : String :=
  if final_score ≥ RISK_THRESHOLD_HIGH then "#CC0000"
  else if final_score ≥ RISK_THRESHOLD_MEDIUM then "#FFCC00"
  else "#008000"

/-- `create_html_report`: the downloadable forensic report.  The f-string is
embedded chunk by chunk, each interpolation spliced in place; the
`time.strftime` call is passed in as the explicit `timestamp` argument, and
numeric breakdown values are rendered with `toString` (the exact decimal
formatting Python gives its floats is immaterial to every claim). -/
def create_html_report (final_score : Int) (breakdown : RiskBreakdown)
    (suspect_url suspect_handle suspect_posts suggestion_text risk_label : String)
    (timestamp : String) : String :=
  "
    <!DOCTYPE html>
    <html lang=\"en\">
    <head>
        <meta charset=\"UTF-8\">
        <title>Hawk-Eye AI Forensic Report</title>
        <style>
            /* Professional, clean CSS structure for printing */
            body \x7b font-family: Arial, sans-serif; margin: 0; padding: 20px; color: #333; line-height: 1.6; \x7d
            .container \x7b width: 850px; margin: 0 auto; border: 1px solid #ccc; padding: 30px; box-shadow: 0 0 10px rgba(0,0,0,0.1); \x7d

            /* Header */
            .header \x7b background-color: #2c3e50; color: white; padding: 20px; text-align: center; margin-bottom: 20px; border-radius: 5px; \x7d
            .header h1 \x7b margin: 0; font-size: 26px; \x7d
            .header p \x7b margin: 5px 0 0; font-size: 14px; opacity: 0.9; \x7d

            /* Section Styling */
            h2 \x7b border-bottom: 2px solid #3498db; padding-bottom: 5px; margin-top: 25px; color: #34495e; font-size: 20px; \x7d

            /* Risk Summary Box */
            .risk-summary-box \x7b
                display: flex;
                justify-content: space-between;
                align-items: center;
                padding: 15px 20px;
                margin-bottom: 20px;
                border-radius: 8px;
                border: 2px solid "
    ++ risk_color_of final_score
    ++ ";
                background-color: #f4f6f7;
            \x7d
            .risk-score \x7b font-size: 36px; font-weight: bold; color: "
    ++ risk_color_of final_score
    ++ "; \x7d
            .risk-label \x7b font-size: 20px; font-weight: bold; color: #333; \x7d

            /* Table Styling */
            table \x7b width: 100%; border-collapse: collapse; margin-top: 10px; \x7d
            th, td \x7b border: 1px solid #ddd; padding: 12px; text-align: left; font-size: 14px; \x7d
            th \x7b background-color: #ecf0f1; color: #34495e; \x7d
            .value-column \x7b font-weight: bold; width: 30%; \x7d

            /* Action Suggestion Box */
            .action-suggestion \x7b
                background-color: #fcf8e3;
                border: 1px solid #f9d863;
                color: #8a6d3b;
                padding: 15px;
                margin-top: 15px;
                border-radius: 5px;
            \x7d

            /* Post Content Block */
            .post-content \x7b
                background-color: #ecf0f1;
                border-left: 5px solid #3498db;
                padding: 15px;
                margin-top: 10px;
                white-space: pre-wrap;
                font-style: italic;
            \x7d

            /* Footer */
            .footer \x7b text-align: center; margin-top: 40px; font-size: 12px; color: #7f8c8d; \x7d

            /* Specific styling for the risk label color */
            .risk-value \x7b color: "
    ++ risk_color_of final_score
    ++ "; \x7d
        </style>
    </head>
    <body>
        <div class=\"container\">
            <div class=\"header\">
                <h1>🚨 HAWK-EYE AI FORENSIC REPORT</h1>
                <p>Instant Deception Detector | Generated on: "
    ++ timestamp
    ++ "</p>
            </div>

            <h2>1. Final Impersonation Risk Summary</h2>
            <div class=\"risk-summary-box\">
                <div>
                    <div class=\"risk-label\">Risk Level:</div>
                    <div class=\"risk-score risk-value\">"
    ++ risk_label
    ++ "</div>
                </div>
                <div style=\"text-align: right;\">
                    <div class=\"risk-label\">Calculated Risk Score:</div>
                    <div class=\"risk-score risk-value\">"
    ++ toString final_score
    ++ "%</div>
                </div>
            </div>

            <div class=\"action-suggestion\">
                <strong>Action Suggestion:</strong> "
    ++ suggestion_text
    ++ "
            </div>

            <h2>2. Suspect Profile & Reference</h2>
            <table>
                <tr>
                    <th>Field</th>
                    <th class=\"value-column\">Value</th>
                </tr>
                <tr>
                    <td>*Suspect URL*</td>
                    <td class=\"value-column\"><a href=\""
    ++ suspect_url
    ++ "\" target=\"_blank\">"
    ++ suspect_url
    ++ "</a></td>
                </tr>
                <tr>
                    <td>*Suspect Handle*</td>
                    <td class=\"value-column\">"
    ++ suspect_handle
    ++ "</td>
                </tr>
                <tr>
                    <td>*Official Handle Reference*</td>
                    <td class=\"value-column\">"
    ++ OFFICIAL_HANDLE
    ++ "</td>
                </tr>
            </table>

            <h2>3. Detailed Risk Breakdown (Max 100 Points)</h2>
            <table>
                <tr>
                    <th>Risk Factor</th>
                    <th>Score Detail</th>
                    <th class=\"value-column\">Points Earned</th>
                </tr>
                <tr>
                    <td>*Identity Risk (Max 45)*</td>
                    <td>Handle Similarity: "
    ++ toString breakdown.handleSimilarityPct
    ++ "%</td>
                    <td class=\"value-column\">"
    ++ toString breakdown.identityRiskPoints
    ++ "</td>
                </tr>
                <tr>
                    <td>*Behavioral Risk (Max 40)*</td>
                    <td>
                        Keyword Scan Points: "
    ++ toString breakdown.keywordScanPoints
    ++ "<br>
                        *Urgency Tone Points (NEW)*: "
    ++ toString breakdown.urgencyTonePoints
    ++ "
                    </td>
                    <td class=\"value-column\">"
    ++ toString breakdown.behavioralRiskPoints
    ++ "</td>
                </tr>
                <tr>
                    <td>*Network/Metadata Risk (Max 15)*</td>
                    <td>
                        Account Age: "
    ++ toString breakdown.accountAgeDays
    ++ " days<br>
                        Domain Age Risk Points: "
    ++ toString breakdown.domainAgePoints
    ++ "<br>
                        *Phishing Link Points (NEW)*: "
    ++ toString breakdown.phishingPoints
    ++ "<br>
                        Stolen Pic Risk Points: "
    ++ toString breakdown.stolenPicPoints
    ++ "
                    </td>
                    <td class=\"value-column\">"
    ++ toString breakdown.networkRiskPoints
    ++ "</td>
                </tr>
                <tr>
                    <td style=\"background-color: #dbe4f1; font-weight: bold;\">*AI Confidence Score*</td>
                    <td style=\"background-color: #dbe4f1;\">Model\x27s certainty in the calculated risk.</td>
                    <td class=\"value-column\" style=\"background-color: #dbe4f1;\">"
    ++ toString breakdown.confidencePct
    ++ "%</td>
                </tr>
                <tr style=\"background-color: #e5e7e9; font-weight: bold;\">
                    <td>*TOTAL RISK SCORE*</td>
                    <td></td>
                    <td class=\"value-column\">"
    ++ toString final_score
    ++ " / 100</td>
                </tr>
            </table>

            <h2>4. Evidential Content</h2>
            <p><strong>Recent Post Content Scanned:</strong></p>
            <div class=\"post-content\">
                "
    ++ suspect_posts
    ++ "
            </div>

            <div class=\"footer\">
                This document is a machine-generated forensic snapshot and is intended for official use only.
            </div>
        </div>
    </body>
    </html>
    "

/-- `sub` occurs as a literal, untruncated substring of `s`. -/
def HasSub (sub s : String) : Prop := ∃ a b : String, s = a ++ sub ++ b

/-- Spec-side notion for the single-char-diff claim: the two strings have
equal length and differ in exactly one case-insensitive character position. -/
def oneCaseInsensitiveDiff (s t : String) : Prop :=
  s.length = t.length ∧ diffCount (pyLower s) (pyLower t) = 1

instance (s t : String) : Decidable (oneCaseInsensitiveDiff s t) := by
  unfold oneCaseInsensitiveDiff; infer_instance

/-- A sample random outcome, inside every sampled range. -/
def sampleRand : Rand :=
  { idBonus2 := 2, idBonus5 := 3, conf1 := 95, conf2 := 80, conf3 := 60,
    ageEstablished := 400, netBonus := 1, ageNew := 10, jitter := -3 }

/-- A sample breakdown record (used to exercise the report renderer). -/
def sampleBreakdown : RiskBreakdown :=
  { handleSimilarityPct := 99, identityRiskPoints := 45, keywordScanPoints := 25,
    urgencyTonePoints := 15, behavioralRiskPoints := 40, networkRiskPoints := 15,
    accountAgeDays := 10, domainAgePoints := 3, phishingPoints := 3,
    stolenPicPoints := 4, confidencePct := 80 }

theorem str_append_empty (s : String) : s ++ "" = s := by
  cases s
  apply String.ext
  simp [String.data_append]

theorem str_append_assoc (a b c : String) : a ++ b ++ c = a ++ (b ++ c) := by
  cases a; cases b; cases c
  apply String.ext
  simp [String.data_append]

/-- The last piece of a concatenation is a substring of it. -/
theorem hasSub_tail (s sub : String) : HasSub sub (s ++ sub) :=
  ⟨s, "", by rw [str_append_empty]⟩

/-- A substring of `s` is a substring of `s ++ c`. -/
theorem hasSub_snoc (c : String) {sub s : String} (h : HasSub sub s) :
    HasSub sub (s ++ c) := by
  obtain ⟨a, b, hab⟩ := h
  exact ⟨a, b ++ c, by rw [hab, str_append_assoc (a ++ sub) b c]⟩

/-- `round2` is rounding to the nearest hundredth, written with `Int.floor`. -/
theorem round2_eq (q : ℚ) : round2 q = (⌊(100 * q + 1/2 : ℚ)⌋ : ℚ) / 100 := by
  have hd : ((q.den : ℚ)) ≠ 0 := Nat.cast_ne_zero.mpr q.den_nz
  have hd2 : (((2 * q.den : ℕ) : ℚ)) ≠ 0 :=
    Nat.cast_ne_zero.mpr (Nat.mul_ne_zero two_ne_zero q.den_nz)
  have hnum : ((q.num : ℚ)) = q * q.den := by
    have h := Rat.num_div_den q
    rw [div_eq_iff hd] at h
    exact h
  unfold round2
  rw [Rat.mkRat_eq_div, Rat.mkRat_eq_div]
  have key : (((200 * q.num + (q.den : ℤ)) : ℤ) : ℚ) / (((2 * q.den : ℕ)) : ℚ)
      = 100 * q + 1/2 := by
    rw [div_eq_iff hd2]
    push_cast
    rw [hnum]
    ring
  rw [key]
  norm_num

/-- Rounding to the nearest hundredth cannot fall below an integer bound. -/
theorem le_round2 {z : ℤ} {q : ℚ} (h : (z : ℚ) ≤ q) : (z : ℚ) ≤ round2 q := by
  rw [round2_eq]
  rw [le_div_iff₀ (by norm_num : (0:ℚ) < 100)]
  have h1 : ((100 * z : ℤ) : ℚ) ≤ 100 * q + 1/2 := by push_cast; linarith
  have h2 : (100 * z : ℤ) ≤ ⌊(100 * q + 1/2 : ℚ)⌋ := Int.le_floor.mpr h1
  calc (z : ℚ) * 100 = ((100 * z : ℤ) : ℚ) := by push_cast; ring
    _ ≤ (⌊(100 * q + 1/2 : ℚ)⌋ : ℚ) := by exact_mod_cast h2

/-- Rounding to the nearest hundredth cannot exceed a bound that is a
multiple of one tenth. -/
theorem round2_le_tenth {z : ℤ} {q : ℚ} (h : q ≤ (z : ℚ) / 10) :
    round2 q ≤ (z : ℚ) / 10 := by
  rw [round2_eq]
  rw [div_le_div_iff₀ (by norm_num : (0:ℚ) < 100) (by norm_num : (0:ℚ) < 10)]
  have hlt : (100 * q + 1/2 : ℚ) < ((10 * z + 1 : ℤ) : ℚ) := by push_cast; linarith
  have h2 : ⌊(100 * q + 1/2 : ℚ)⌋ < 10 * z + 1 := Int.floor_lt.mpr hlt
  have h3 : ⌊(100 * q + 1/2 : ℚ)⌋ ≤ 10 * z := by omega
  have h4 : ((⌊(100 * q + 1/2 : ℚ)⌋ : ℤ) : ℚ) ≤ ((10 * z : ℤ) : ℚ) := by exact_mod_cast h3
  calc (⌊(100 * q + 1/2 : ℚ)⌋ : ℚ) * 10 ≤ ((10 * z : ℤ) : ℚ) * 10 := by linarith
    _ = (z : ℚ) * 100 := by push_cast; ring

/-- The similarity evaluator only ever returns one of its four buckets. -/
theorem similarity_mem_range (s o : String) :
    get_similarity_score s o = 1 ∨ get_similarity_score s o = mkRat 99 100
      ∨ get_similarity_score s o = mkRat 9 10 ∨ get_similarity_score s o = mkRat 1 5 := by
  unfold get_similarity_score
  split_ifs <;> simp

/-- Zipping a list with itself yields no differing positions. -/
theorem countP_zip_self (l : List Char) :
    (l.zip l).countP (fun p => p.1 != p.2) = 0 := by
  induction l with
  | nil => rfl
  | cons a l ih => simp [List.countP_cons, ih]

theorem diffCount_self (s : String) : diffCount s s = 0 := by
  unfold diffCount
  exact countP_zip_self s.data

/-- Strings at diff count one are distinct. -/
theorem diffCount_one_ne {s t : String} (h : diffCount s t = 1) : s ≠ t := by
  intro he
  rw [he, diffCount_self] at h
  exact absurd h (by decide)

/-- The keyword loop adds 15 points per matching keyword. -/
theorem foldl_keyword (low : String) (l : List String) (acc : Nat) :
    l.foldl (fun r keyword => if pyContains keyword low = true then r + 15 else r) acc
      = acc + 15 * l.countP (fun keyword => pyContains keyword low) := by
  induction l generalizing acc with
  | nil => simp
  | cons k l ih =>
    simp only [List.foldl_cons, List.countP_cons, ih]
    by_cases h : pyContains k low = true
    all_goals simp [h]
    all_goals omega

/-- C1: for every input and every outcome of the random bonuses and the
jitter, the final score returned by `calculate_risk_score` is an integer in
`[0, 100]`. -/
theorem final_score_in_range (handle recent_posts : String) (est : Bool)
    (dom pic urg phl : String) (r : Rand) (_hv : r.Valid) :
    0 ≤ (calculate_risk_score handle recent_posts est dom pic urg phl r).1
      ∧ (calculate_risk_score handle recent_posts est dom pic urg phl r).1 ≤ 100 := by
  have hshape : (calculate_risk_score handle recent_posts est dom pic urg phl r).1
      = max (min ((identity_risk (get_similarity_score handle OFFICIAL_HANDLE) r
            + behavior_risk recent_posts urg + network_risk est dom pic phl r : Int)
            + r.jitter) 100) 0 := rfl
  rw [hshape]
  exact ⟨le_max_right _ _, max_le (le_trans (min_le_right _ _) (by norm_num)) (by norm_num)⟩

theorem final_score_in_range_witness :
    0 ≤ (calculate_risk_score "0disha_Police" "send money" false "a" "b" "c" "d" sampleRand).1
      ∧ (calculate_risk_score "0disha_Police" "send money" false "a" "b" "c" "d" sampleRand).1
          ≤ 100 :=
  final_score_in_range "0disha_Police" "send money" false "a" "b" "c" "d" sampleRand (by decide)

/-- C2 counterexample: `"0disha_Police"` and `"Odisha_Police"` have equal
length and differ in exactly one case-insensitive character position, yet
`get_similarity_score` returns the near-exact level `0.99`, not the claimed
single-char-diff level `0.90`: the zero-for-o branch takes precedence. -/
theorem single_char_diff_counterexample :
    oneCaseInsensitiveDiff "0disha_Police" "Odisha_Police"
      ∧ get_similarity_score "0disha_Police" "Odisha_Police" ≠ mkRat 9 10 :=
  ⟨by decide, by decide⟩

/-- C2 (amended): for every pair of strings on which trimming is a no-op
(no surrounding whitespace), of equal length, differing in exactly one
case-insensitive character position, and for which the near-exact
zero-for-o branch does not fire, `get_similarity_score` returns the
single-char-diff level `0.90`. -/
theorem single_char_diff_amended (s o : String)
    (hs : pyStrip (pyLower s) = pyLower s) (ho : pyStrip (pyLower o) = pyLower o)
    (hd : oneCaseInsensitiveDiff s o)
    (hne : ¬(pyReplaceFirst (pyLower s) '0' 'o' = pyLower o
              ∧ pyContains "0" (pyLower s) = true)) :
    get_similarity_score s o = mkRat 9 10 := by
  obtain ⟨hlen, hdiff⟩ := hd
  have h1 : pyLower s ≠ pyLower o := diffCount_one_ne hdiff
  unfold get_similarity_score
  rw [hs, ho, if_neg h1, if_neg hne, if_pos ⟨hlen, hdiff⟩]

theorem single_char_diff_amended_witness :
    get_similarity_score "Adisha_Police" "Odisha_Police" = mkRat 9 10 :=
  single_char_diff_amended "Adisha_Police" "Odisha_Police"
    (by decide) (by decide) (by decide) (by decide)

/-- C3: `get_similarity_score` returns the near-exact level `0.99` exactly
when the candidate is not an exact case-insensitive match, replacing the
first `'0'` by `'o'` in the lower-cased trimmed candidate yields the
lower-cased trimmed reference, and the candidate contains a `'0'`; in
particular `"0disha_Police"` against `"Odisha_Police"` yields `0.99`. -/
theorem near_exact_characterization (s o : String) :
    (get_similarity_score s o = mkRat 99 100 ↔
      (pyStrip (pyLower s) ≠ pyStrip (pyLower o)
        ∧ pyReplaceFirst (pyStrip (pyLower s)) '0' 'o' = pyStrip (pyLower o)
        ∧ pyContains "0" (pyStrip (pyLower s)) = true))
    ∧ get_similarity_score "0disha_Police" "Odisha_Police" = mkRat 99 100 := by
  constructor
  · unfold get_similarity_score
    split_ifs with h1 h2 h3
    · exact iff_of_false (by decide) (fun hc => hc.1 h1)
    · exact iff_of_true rfl ⟨h1, h2.1, h2.2⟩
    · exact iff_of_false (by decide) (fun hc => h2 ⟨hc.2.1, hc.2.2⟩)
    · exact iff_of_false (by decide) (fun hc => h2 ⟨hc.2.1, hc.2.2⟩)
  · decide

/-- C4: `keyword_scan_score` lower-cases its input, adds 25 for urgent plus
money-or-fund, adds 15 per matching phrase of the 12-keyword list, and clamps
at 60; on the quoted input the pre-clamp sum is 70 and the result is 60. -/
theorem keyword_scan_characterization :
    (∀ t : String, keyword_scan_score t =
      min ((if pyContains "urgent" (pyLower t) = true
              ∧ (pyContains "money" (pyLower t) = true
                 ∨ pyContains "fund" (pyLower t) = true) then 25 else 0)
        + 15 * fraud_keywords.countP (fun keyword => pyContains keyword (pyLower t))) 60)
    ∧ fraud_keywords.length = 12
    ∧ keyword_scan_preclamp
        "URGENT! Send money now to this wallet address or you will be fined." = 70
    ∧ keyword_scan_score
        "URGENT! Send money now to this wallet address or you will be fined." = 60 := by
  refine ⟨fun t => ?_, by decide, by decide, by decide⟩
  unfold keyword_scan_score keyword_scan_preclamp
  rw [foldl_keyword]

/-- C5: the identity contribution recorded by `calculate_risk_score` is
determined by the similarity level (exact → 0, near-exact → 43 plus the
`[0,2]` bonus, single-char-diff → 25 plus the `[0,5]` bonus, dissimilar → 5
plus the `[0,5]` bonus) and never exceeds 45. -/
theorem identity_contribution (handle recent_posts : String) (est : Bool)
    (dom pic urg phl : String) (r : Rand) (hv : r.Valid) :
    (calculate_risk_score handle recent_posts est dom pic urg phl r).2.identityRiskPoints
        = identity_risk (get_similarity_score handle OFFICIAL_HANDLE) r
    ∧ (get_similarity_score handle OFFICIAL_HANDLE = 1
        → identity_risk (get_similarity_score handle OFFICIAL_HANDLE) r = 0)
    ∧ (get_similarity_score handle OFFICIAL_HANDLE = mkRat 99 100
        → identity_risk (get_similarity_score handle OFFICIAL_HANDLE) r = 43 + r.idBonus2)
    ∧ (get_similarity_score handle OFFICIAL_HANDLE = mkRat 9 10
        → identity_risk (get_similarity_score handle OFFICIAL_HANDLE) r = 25 + r.idBonus5)
    ∧ (get_similarity_score handle OFFICIAL_HANDLE = mkRat 1 5
        → identity_risk (get_similarity_score handle OFFICIAL_HANDLE) r = 5 + r.idBonus5)
    ∧ (calculate_risk_score handle recent_posts est dom pic urg phl r).2.identityRiskPoints
        ≤ 45 := by
  obtain ⟨hb2, hb5, -⟩ := hv
  refine ⟨rfl, fun h => ?_, fun h => ?_, fun h => ?_, fun h => ?_, ?_⟩
  · unfold identity_risk
    rw [if_pos h]
  · unfold identity_risk
    rw [h, if_neg (by decide), if_pos rfl]
  · unfold identity_risk
    rw [h, if_neg (by decide), if_neg (by decide), if_pos rfl]
  · unfold identity_risk
    rw [h, if_neg (by decide), if_neg (by decide), if_neg (by decide)]
  · show identity_risk (get_similarity_score handle OFFICIAL_HANDLE) r ≤ 45
    unfold identity_risk
    split_ifs <;> omega

theorem identity_contribution_witness :
    (calculate_risk_score "0disha_Police" "" false "a" "b" "c" "d" sampleRand).2.identityRiskPoints
      = 43 + sampleRand.idBonus2 := by
  have h := identity_contribution "0disha_Police" "" false "a" "b" "c" "d" sampleRand (by decide)
  rw [h.1]
  exact h.2.2.1 (by decide)

/-- C6: the behavioral contribution is the floor of `raw * 25 / 60` — with
`raw`, the keyword-scan output, in `[0, 60]` — plus 15/7/0 urgency points,
clamped at 40. -/
theorem behavioral_contribution (handle recent_posts : String) (est : Bool)
    (dom pic urg phl : String) (r : Rand) :
    keyword_scan_score recent_posts ≤ 60
    ∧ (calculate_risk_score handle recent_posts est dom pic urg phl r).2.keywordScanPoints
        = ⌊((keyword_scan_score recent_posts : ℚ) * 25) / 60⌋₊
    ∧ (calculate_risk_score handle recent_posts est dom pic urg phl r).2.urgencyTonePoints
        = (if urg = "High Urgency (Threat/Panic)" then 15
           else if urg = "Medium Urgency (Time Pressure)" then 7 else 0)
    ∧ (calculate_risk_score handle recent_posts est dom pic urg phl r).2.behavioralRiskPoints
        = min ((calculate_risk_score handle recent_posts est dom pic urg phl r).2.keywordScanPoints
            + (calculate_risk_score handle recent_posts est dom pic urg phl r).2.urgencyTonePoints)
            40
    ∧ (calculate_risk_score handle recent_posts est dom pic urg phl r).2.behavioralRiskPoints
        ≤ 40 := by
  refine ⟨min_le_right _ _, ?_, rfl, rfl, ?_⟩
  · show keyword_points (keyword_scan_score recent_posts) = _
    unfold keyword_points
    rw [show ((keyword_scan_score recent_posts : ℚ) * 25)
          = ((keyword_scan_score recent_posts * 25 : ℕ) : ℚ) from by push_cast; ring,
        show ((60 : ℚ)) = ((60 : ℕ) : ℚ) from by norm_num,
        Nat.floor_div_nat, Nat.floor_natCast]
  · show behavior_risk recent_posts urg ≤ 40
    unfold behavior_risk
    exact min_le_right _ _

/-- C7: the network contribution starts at 0, adds 5 plus the `[0,2]` bonus
for an unestablished account, adds 3/1/0 domain-age points, 3/1/0 phishing
points and 4 stolen-picture points, and is clamped at 15. -/
theorem network_contribution (handle recent_posts : String) (est : Bool)
    (dom pic urg phl : String) (r : Rand) :
    (calculate_risk_score handle recent_posts est dom pic urg phl r).2.networkRiskPoints
        = min ((if est then 0 else 5 + r.netBonus)
            + (if dom = "High Risk (New/Suspicious Domain)" then 3
               else if dom = "Medium Risk (Recently Updated Domain)" then 1 else 0)
            + (if phl = "Homoglyph/Typosquatting Detected" then 3
               else if phl = "Malicious Domain Structure Detected" then 1 else 0)
            + (if pic = "Yes (Stolen/Official Image Match)" then 4 else 0)) 15
    ∧ (calculate_risk_score handle recent_posts est dom pic urg phl r).2.networkRiskPoints
        ≤ 15 := by
  refine ⟨rfl, ?_⟩
  show network_risk est dom pic phl r ≤ 15
  unfold network_risk
  exact min_le_right _ _

/-- C8: `get_action_suggestion` is total on scores and maps `score ≥ 70` to
the HIGH tier, `40 ≤ score < 70` to the MEDIUM tier and `score < 40` to the
LOW tier, each with its fixed advisory string and display style. -/
theorem action_suggestion_tiers (score : Int) :
    (70 ≤ score → get_action_suggestion score
        = ("🚨 *IMMEDIATE TAKEDOWN & FORENSIC TRACE:* Initiate platform-specific emergency takedown protocol. Begin forensic tracing of associated wallet addresses and IP logs.",
           "error", "HIGH RISK: IMMEDIATE TAKEDOWN REQUIRED"))
    ∧ (40 ≤ score → score < 70 → get_action_suggestion score
        = ("⚠ *MANDATORY MANUAL REVIEW & MONITORING:* Escalate to a Level 2 Analyst for mandatory human review. Set up automated monitoring for further post activity over the next 48 hours.",
           "warning", "MEDIUM RISK: INVESTIGATE URGENTLY"))
    ∧ (score < 40 → get_action_suggestion score
        = ("✅ *SCHEDULED RE-EVALUATION:* No immediate action required. Profile will be marked for re-evaluation in 7 days to check for any changes in risk factors or behavioral patterns.",
           "info", "LOW RISK: MONITOR")) := by
  unfold get_action_suggestion RISK_THRESHOLD_HIGH RISK_THRESHOLD_MEDIUM
  refine ⟨fun h => ?_, fun h1 h2 => ?_, fun h => ?_⟩
  · rw [if_pos (by omega : score ≥ (70 : Int))]
  · rw [if_neg (by omega : ¬score ≥ (70 : Int)), if_pos (by omega : score ≥ (40 : Int))]
  · rw [if_neg (by omega : ¬score ≥ (70 : Int)), if_neg (by omega : ¬score ≥ (40 : Int))]

theorem action_suggestion_tiers_witness :
    get_action_suggestion 70
        = ("🚨 *IMMEDIATE TAKEDOWN & FORENSIC TRACE:* Initiate platform-specific emergency takedown protocol. Begin forensic tracing of associated wallet addresses and IP logs.",
           "error", "HIGH RISK: IMMEDIATE TAKEDOWN REQUIRED")
    ∧ get_action_suggestion 40
        = ("⚠ *MANDATORY MANUAL REVIEW & MONITORING:* Escalate to a Level 2 Analyst for mandatory human review. Set up automated monitoring for further post activity over the next 48 hours.",
           "warning", "MEDIUM RISK: INVESTIGATE URGENTLY")
    ∧ get_action_suggestion 39
        = ("✅ *SCHEDULED RE-EVALUATION:* No immediate action required. Profile will be marked for re-evaluation in 7 days to check for any changes in risk factors or behavioral patterns.",
           "info", "LOW RISK: MONITOR") :=
  ⟨(action_suggestion_tiers 70).1 (by decide),
   (action_suggestion_tiers 40).2.1 (by decide) (by decide),
   (action_suggestion_tiers 39).2.2 (by decide)⟩

/-- C9: the rendered report contains, as literal untruncated substrings, the
final score, the tier label, the candidate handle, URL and post text, and
the color keyed to the score: red at 70 and above, amber at 40 and above,
green below. -/
theorem report_contains_inputs (final_score : Int) (breakdown : RiskBreakdown)
    (suspect_url suspect_handle suspect_posts suggestion_text risk_label timestamp : String) :
    HasSub (toString final_score)
        (create_html_report final_score breakdown suspect_url suspect_handle suspect_posts
          suggestion_text risk_label timestamp)
    ∧ HasSub risk_label
        (create_html_report final_score breakdown suspect_url suspect_handle suspect_posts
          suggestion_text risk_label timestamp)
    ∧ HasSub suspect_handle
        (create_html_report final_score breakdown suspect_url suspect_handle suspect_posts
          suggestion_text risk_label timestamp)
    ∧ HasSub suspect_url
        (create_html_report final_score breakdown suspect_url suspect_handle suspect_posts
          suggestion_text risk_label timestamp)
    ∧ HasSub suspect_posts
        (create_html_report final_score breakdown suspect_url suspect_handle suspect_posts
          suggestion_text risk_label timestamp)
    ∧ HasSub (risk_color_of final_score)
        (create_html_report final_score breakdown suspect_url suspect_handle suspect_posts
          suggestion_text risk_label timestamp)
    ∧ (70 ≤ final_score → risk_color_of final_score = "#CC0000")
    ∧ (40 ≤ final_score → final_score < 70 → risk_color_of final_score = "#FFCC00")
    ∧ (final_score < 40 → risk_color_of final_score = "#008000") := by
  refine ⟨?_, ?_, ?_, ?_, ?_, ?_, fun h => ?_, fun h1 h2 => ?_, fun h => ?_⟩
  · unfold create_html_report
    iterate 3 apply hasSub_snoc
    exact hasSub_tail _ _
  · unfold create_html_report
    iterate 39 apply hasSub_snoc
    exact hasSub_tail _ _
  · unfold create_html_report
    iterate 29 apply hasSub_snoc
    exact hasSub_tail _ _
  · unfold create_html_report
    iterate 31 apply hasSub_snoc
    exact hasSub_tail _ _
  · unfold create_html_report
    iterate 1 apply hasSub_snoc
    exact hasSub_tail _ _
  · unfold create_html_report
    iterate 43 apply hasSub_snoc
    exact hasSub_tail _ _
  · unfold risk_color_of RISK_THRESHOLD_HIGH
    rw [if_pos (by omega : final_score ≥ (70 : Int))]
  · unfold risk_color_of RISK_THRESHOLD_HIGH RISK_THRESHOLD_MEDIUM
    rw [if_neg (by omega : ¬final_score ≥ (70 : Int)),
        if_pos (by omega : final_score ≥ (40 : Int))]
  · unfold risk_color_of RISK_THRESHOLD_HIGH RISK_THRESHOLD_MEDIUM
    rw [if_neg (by omega : ¬final_score ≥ (70 : Int)),
        if_neg (by omega : ¬final_score ≥ (40 : Int))]

theorem report_contains_inputs_witness :
    HasSub "@0disha"
        (create_html_report 80 sampleBreakdown "http://x.example" "@0disha" "urgent money"
          "suggestion" "HIGH RISK: IMMEDIATE TAKEDOWN REQUIRED" "2026-10-12 00:00:00")
    ∧ risk_color_of 80 = "#CC0000" := by
  obtain ⟨h1, h2, h3, h4, h5, h6, h7, h8, h9⟩ :=
    report_contains_inputs 80 sampleBreakdown "http://x.example" "@0disha" "urgent money"
      "suggestion" "HIGH RISK: IMMEDIATE TAKEDOWN REQUIRED" "2026-10-12 00:00:00"
  exact ⟨h3, h7 (by decide)⟩

/-- C10: the confidence recorded in the breakdown always comes from the
first two uniform ranges — the fallback branch drawing from `[50.0, 69.9]`
is unreachable — so it always lies in `[70.0, 99.9]`. -/
theorem confidence_in_range (handle recent_posts : String) (est : Bool)
    (dom pic urg phl : String) (r : Rand) (hv : r.Valid) :
    ((calculate_risk_score handle recent_posts est dom pic urg phl r).2.confidencePct
          = round2 r.conf1
      ∨ (calculate_risk_score handle recent_posts est dom pic urg phl r).2.confidencePct
          = round2 r.conf2)
    ∧ 70 ≤ (calculate_risk_score handle recent_posts est dom pic urg phl r).2.confidencePct
    ∧ (calculate_risk_score handle recent_posts est dom pic urg phl r).2.confidencePct
        ≤ mkRat 999 10 := by
  obtain ⟨-, -, hc1l, hc1u, hc2l, hc2u, -⟩ := hv
  have hshape : (calculate_risk_score handle recent_posts est dom pic urg phl r).2.confidencePct
      = round2 (confidence_score (get_similarity_score handle OFFICIAL_HANDLE) r) := rfl
  have hmk999 : (mkRat 999 10 : ℚ) = ((999 : ℤ) : ℚ) / 10 := by
    rw [Rat.mkRat_eq_div]; norm_num
  have hmk899 : (mkRat 899 10 : ℚ) = ((899 : ℤ) : ℚ) / 10 := by
    rw [Rat.mkRat_eq_div]; norm_num
  have hcs : confidence_score (get_similarity_score handle OFFICIAL_HANDLE) r = r.conf1
      ∨ confidence_score (get_similarity_score handle OFFICIAL_HANDLE) r = r.conf2 := by
    rcases similarity_mem_range handle OFFICIAL_HANDLE with h | h | h | h
    · left; unfold confidence_score; rw [h, if_pos (Or.inl rfl)]
    · right; unfold confidence_score; rw [h, if_neg (by decide), if_pos (by decide)]
    · right; unfold confidence_score; rw [h, if_neg (by decide), if_pos (by decide)]
    · left; unfold confidence_score; rw [h, if_pos (Or.inr (by decide))]
  rcases hcs with h | h
  · rw [hshape, h]
    refine ⟨Or.inl rfl, ?_, ?_⟩
    · have h70 : ((70 : ℤ) : ℚ) ≤ r.conf1 := by push_cast; linarith
      have := le_round2 h70
      exact_mod_cast this
    · rw [hmk999]
      exact round2_le_tenth (le_trans hc1u (le_of_eq hmk999))
  · rw [hshape, h]
    refine ⟨Or.inr rfl, ?_, ?_⟩
    · have h70 : ((70 : ℤ) : ℚ) ≤ r.conf2 := by push_cast; linarith
      have := le_round2 h70
      exact_mod_cast this
    · rw [hmk999]
      refine round2_le_tenth (le_trans hc2u ?_)
      rw [hmk899]
      norm_num

theorem confidence_in_range_witness :
    70 ≤ (calculate_risk_score "0disha_Police" "" false "a" "b" "c" "d" sampleRand).2.confidencePct
    ∧ (calculate_risk_score "0disha_Police" "" false "a" "b" "c" "d" sampleRand).2.confidencePct
        ≤ mkRat 999 10 :=
  (confidence_in_range "0disha_Police" "" false "a" "b" "c" "d" sampleRand (by decide)).2

end HawkEye
